import Mathlib

/-!
Verification of the InsightOps logrus adapter (`insightops.go`).

Shallow embedding of the package `insightops_logrus`:
* the configuration resolution done by `New` (validation, region host,
  Datahub/hub override, priority-to-level-filter, TLS attachment, probe);
* the adapter dispatch `Fire` (format, write, error policy);
* the bounded connection pool (`getConn`, `putConn`, `write`,
  `FlushAndClose`), with the network environment (dial outcomes, write
  outcomes) passed in explicitly and connections identified by `Nat` ids.

Machine integers: `logrus.Level` is a Go `uint32`, embedded as `Nat`
(levels in play are 0..6, far from overflow); Go `int` ports are `Int`.
-/

namespace InsightOps

/-- logrus severity levels, most severe first; `logrus.Level` values
0 (panic) through 6 (trace). -/
inductive LogLevel
  | panic
  | fatal
  | error
  | warn
  | info
  | debug
  | trace
deriving DecidableEq, Repr, Inhabited

/-- Embedding of `logrus.AllLevels`: every severity, most severe first. -/
def allLevels : List LogLevel :=
  [LogLevel.panic, LogLevel.fatal, LogLevel.error, LogLevel.warn,
   LogLevel.info, LogLevel.debug, LogLevel.trace]

/-- Numeric value of `logrus.PanicLevel`. -/
def panicLevel : Nat := 0

/-- Numeric value of `logrus.InfoLevel`. -/
def infoLevel : Nat := 4

/-- Numeric value of `logrus.TraceLevel`. -/
def traceLevel : Nat := 6

/-- Struct `UnencryptedConnectionConfig`: the Datahub (hub/proxy) override struct.
The Go field `Type` is `Type'` here (`Type` is reserved in Lean). -/
structure UnencryptedConnectionConfig where
  Type' : String
  Port : Int
  Host : String
deriving DecidableEq, Repr, Inhabited

/-- Struct `Opts`: optional parameters to `New`. `Priority` is a `logrus.Level`
(uint32, embedded as `Nat`); `TlsConfig` is an opaque `*tls.Config`,
embedded as an optional identity; `DatahubConfig` the hub override. -/
structure Opts where
  Priority : Nat
  TlsConfig : Option Nat
  DatahubConfig : Option UnencryptedConnectionConfig
deriving DecidableEq, Repr, Inhabited

/-- The configuration fields of `InsightOpsHook` resolved by `New`
(the pool channel itself is modelled separately as `PoolState`).
`timestampFormat` embeds `formatter.TimestampFormat`. -/
structure InsightOpsHook where
  encrypt : Bool
  token : String
  levels : List LogLevel
  timestampFormat : Option String
  network : String
  port : Int
  tlsConfig : Option Nat
  host : String
  poolSize : Nat
deriving DecidableEq, Repr, Inhabited

/-- Constant `hostPostfix` from the source. -/
def hostPostfix : String := ".data.logs.insight.rapid7.com"

/-- Constant `tlsPort` from the source. -/
def tlsPort : Int := 443

/-- Error text for a missing token (`New`, line 53). -/
def missingTokenMsg : String := "unable to create new hook: a Token is required"

/-- Error text for an invalid region (`New`, line 57). -/
def invalidRegionMsg : String :=
  "unable to create new hook: a Region is required and must be eu or us"

/-- Error text for a hub override without a host (`New`, line 88). -/
def missingHubHostMsg : String :=
  "unable to create new hook: a Datahub config must contain a Host target"

/-- The hook literal built at lines 62-73 of `New`, before options are
applied: encrypted tcp to `region + hostPostfix` on 443, all levels,
pool size 3. -/
def baseHook (token region : String) : InsightOpsHook :=
  { encrypt := true
    token := token
    levels := allLevels
    timestampFormat := none
    network := "tcp"
    host := region ++ hostPostfix
    port := tlsPort
    tlsConfig := none
    poolSize := 3 }

/-- Lines 79-82 of `New`: a priority below `PanicLevel` (impossible for a
uint32, kept verbatim) or above `TraceLevel` falls back to `InfoLevel`. -/
def clampPriority (priority : Nat) : Nat :=
  if priority < panicLevel ∨ traceLevel < priority then infoLevel else priority

/-- Lines 90-95 of `New`: in-place defaulting of the caller's
`DatahubConfig` fields — `Type` to "tcp" when empty or not tcp/udp,
`Port` to 514 when 0 or not in {80, 514, 10000}. -/
def normalizeHub (dh : UnencryptedConnectionConfig) : UnencryptedConnectionConfig :=
  let dh1 :=
    if dh.Type' = "" ∨ (dh.Type' ≠ "tcp" ∧ dh.Type' ≠ "udp")
    then { dh with Type' := "tcp" } else dh
  if dh1.Port = 0 ∨ (dh1.Port ≠ 80 ∧ dh1.Port ≠ 514 ∧ dh1.Port ≠ 10000)
  then { dh1 with Port := 514 } else dh1

/-- Lines 103-105 of `New`: attach the caller's TLS config only when the
resolved target is encrypted. -/
def attachTls (hook : InsightOpsHook) (opts : Opts) : InsightOpsHook :=
  if hook.encrypt = true ∧ opts.TlsConfig ≠ none
  then { hook with tlsConfig := opts.TlsConfig } else hook

/-- Lines 51-106 of `New`: validation and configuration resolution, up to
(but not including) the probe connection. Since `New` mutates the
caller's `*Opts` through the `DatahubConfig` pointer, the final state of
the options is returned alongside the result. -/
def resolveNew (token region : String) (options : Option Opts) :
    Except String InsightOpsHook × Option Opts :=
  if token = "" then (Except.error missingTokenMsg, options)
  else if region = "" ∨ (region ≠ "eu" ∧ region ≠ "us") then
    (Except.error invalidRegionMsg, options)
  else
    match options with
    | none => (Except.ok (baseHook token region), none)
    | some opts =>
      let hook1 := { baseHook token region with timestampFormat := some "RFC3339" }
      let hook2 := { hook1 with levels := allLevels.take (clampPriority opts.Priority + 1) }
      match opts.DatahubConfig with
      | none => (Except.ok (attachTls hook2 opts), some opts)
      | some dh =>
        if dh.Host = "" then (Except.error missingHubHostMsg, some opts)
        else
          let dh2 := normalizeHub dh
          let hook3 := { hook2 with
            host := dh2.Host
            encrypt := false
            network := dh2.Type'
            port := dh2.Port }
          (Except.ok (attachTls hook3 opts), some { opts with DatahubConfig := some dh2 })

/-- Outcome of the single probe `netConnect` made by `New` (lines
108-114): either the dial fails, or it succeeds and the immediate
`Close` returns an optional error. -/
inductive ProbeResult
  | dialFail (e : String)
  | dialOk (closeErr : Option String)
deriving DecidableEq, Repr, Inhabited

/-- The probe's close error, when the dial succeeded and close failed. -/
def probeCloseErr : ProbeResult → Option String
  | ProbeResult.dialOk (some e) => some e
  | _ => none

/-- Function `New` (lines 51-117): resolve the configuration, then make exactly one
probe connection. A probe dial failure is swallowed; only a close error
on a successfully-opened probe connection is returned (with no hook). -/
def New (token region : String) (options : Option Opts) (probe : ProbeResult) :
    Except String InsightOpsHook × Option Opts :=
  match resolveNew token region options with
  | (Except.error e, outOpts) => (Except.error e, outOpts)
  | (Except.ok hook, outOpts) =>
    match probe with
    | ProbeResult.dialFail _ => (Except.ok hook, outOpts)
    | ProbeResult.dialOk none => (Except.ok hook, outOpts)
    | ProbeResult.dialOk (some e) => (Except.error e, outOpts)

/-- State of the hook's connection pool (`hook.pool`, a buffered channel
of `net.Conn`). Connections are identified by `Nat` ids; `closedConns`
records every id whose `Close` has been called, `dialCount` every
`netConnect` attempt, `nextId` the id a fresh dial would get.
Receiving from the channel after `close` (use after `FlushAndClose`)
is outside the model. -/
structure PoolState where
  pool : List Nat
  capacity : Nat
  poolClosed : Bool
  dialCount : Nat
  nextId : Nat
  closedConns : List Nat
deriving DecidableEq, Repr, Inhabited

/-- The empty pool of a freshly constructed hook (`poolSize` 3). -/
def initPool : PoolState :=
  { pool := [], capacity := 3, poolClosed := false
    dialCount := 0, nextId := 0, closedConns := [] }

/-- Function `getConn` (lines 172-179): non-blocking receive from the pool;
when the pool is empty, dial a fresh connection (`dialOk` says whether
the environment lets the dial succeed). -/
def getConn (s : PoolState) (dialOk : Bool) : Except String Nat × PoolState :=
  match s.pool with
  | c :: rest => (Except.ok c, { s with pool := rest })
  | [] =>
    if dialOk then
      (Except.ok s.nextId,
       { s with dialCount := s.dialCount + 1, nextId := s.nextId + 1 })
    else
      (Except.error "dial error", { s with dialCount := s.dialCount + 1 })

/-- Function `putConn` (lines 181-190): under the pool mutex, non-blocking send
back to the pool; when the channel buffer is full the connection is
closed instead. `none` models the runtime panic of sending on a closed
channel. -/
def putConn (s : PoolState) (c : Nat) : Option PoolState :=
  if s.poolClosed then none
  else if s.pool.length < s.capacity then some { s with pool := s.pool ++ [c] }
  else some { s with closedConns := s.closedConns ++ [c] }

/-- Result of one `write` call: the payloads handed to `conn.Write`, the
returned error (`none` = nil), and the pool state afterwards. -/
structure WriteResult where
  sent : List String
  res : Option String
  state : PoolState
deriving DecidableEq, Repr, Inhabited

/-- Function `write` (lines 158-170): check out a connection, write
`token + line` as one byte sequence; on write error close the connection
and return the error; on success check the connection back in.
`writeErr` is the environment's outcome for the single `conn.Write`. -/
def hookWrite (token : String) (s : PoolState) (line : String)
    (dialOk : Bool) (writeErr : Option String) : Option WriteResult :=
  match getConn s dialOk with
  | (Except.error e, s1) => some { sent := [], res := some e, state := s1 }
  | (Except.ok c, s1) =>
    match writeErr with
    | some e =>
      some { sent := [token ++ line], res := some e,
             state := { s1 with closedConns := s1.closedConns ++ [c] } }
    | none =>
      match putConn s1 c with
      | none => none
      | some s2 => some { sent := [token ++ line], res := none, state := s2 }

/-- Function `FlushAndClose` (lines 192-199): under the pool mutex, close the pool
channel and close every idle connection drained from it. -/
def FlushAndClose (s : PoolState) : PoolState :=
  { s with poolClosed := true, pool := [], closedConns := s.closedConns ++ s.pool }

/-- Result of one `Fire` call: the error returned to logrus (`none` =
nil), the diagnostic lines written to stderr, the payloads written to
the network, and the pool state afterwards. -/
structure FireResult where
  ret : Option String
  stderrLog : List String
  sent : List String
  state : PoolState
deriving DecidableEq, Repr, Inhabited

/-- Function `Fire` (lines 122-134): format the entry (the injected formatter's
outcome is `formatResult`); on format error, log to stderr and return
the error without writing; otherwise delegate to `write`, log any write
error to stderr, and return nil. -/
def Fire (token : String) (s : PoolState) (formatResult : Except String String)
    (dialOk : Bool) (writeErr : Option String) : Option FireResult :=
  match formatResult with
  | Except.error e =>
    some { ret := some e
           stderrLog := ["unable to read entry | err: " ++ e]
           sent := []
           state := s }
  | Except.ok line =>
    match hookWrite token s line dialOk writeErr with
    | none => none
    | some w =>
      some { ret := none
             stderrLog :=
               match w.res with
               | some e => ["unable to write to conn | err: " ++ e ++ " | line: " ++ line]
               | none => []
             sent := w.sent
             state := w.state }

/-! Helper lemmas. -/

lemma typeCond_eq (t : String) :
    (t = "" ∨ (t ≠ "tcp" ∧ t ≠ "udp")) ↔ ¬(t = "tcp" ∨ t = "udp") := by
  by_cases h1 : t = "tcp"
  · subst h1; decide
  · by_cases h2 : t = "udp"
    · subst h2; decide
    · simp [h1, h2]

lemma portCond_eq (p : Int) :
    (p = 0 ∨ (p ≠ 80 ∧ p ≠ 514 ∧ p ≠ 10000)) ↔ ¬(p = 80 ∨ p = 514 ∨ p = 10000) := by
  by_cases h1 : p = 80
  · subst h1; decide
  · by_cases h2 : p = 514
    · subst h2; decide
    · by_cases h3 : p = 10000
      · subst h3; decide
      · simp [h1, h2, h3]

/-- The in-place hub defaulting, written with the whitelist conditions of
the spec (`Type` kept iff tcp/udp, `Port` kept iff whitelisted). -/
lemma normalizeHub_eq (dh : UnencryptedConnectionConfig) :
    normalizeHub dh =
      { Type' := if dh.Type' = "tcp" ∨ dh.Type' = "udp" then dh.Type' else "tcp"
        Port := if dh.Port = 80 ∨ dh.Port = 514 ∨ dh.Port = 10000 then dh.Port else 514
        Host := dh.Host } := by
  simp only [normalizeHub]
  by_cases hT : dh.Type' = "tcp" ∨ dh.Type' = "udp"
  · rw [if_neg (fun hC => ((typeCond_eq dh.Type').mp hC) hT), if_pos hT]
    by_cases hP : dh.Port = 80 ∨ dh.Port = 514 ∨ dh.Port = 10000
    · rw [if_neg (fun hC => ((portCond_eq dh.Port).mp hC) hP), if_pos hP]
    · rw [if_pos ((portCond_eq dh.Port).mpr hP), if_neg hP]
  · rw [if_pos ((typeCond_eq dh.Type').mpr hT), if_neg hT]
    by_cases hP : dh.Port = 80 ∨ dh.Port = 514 ∨ dh.Port = 10000
    · rw [if_neg (fun hC => ((portCond_eq dh.Port).mp hC) hP), if_pos hP]
    · rw [if_pos ((portCond_eq dh.Port).mpr hP), if_neg hP]

@[simp] lemma attachTls_host (hook : InsightOpsHook) (opts : Opts) :
    (attachTls hook opts).host = hook.host := by
  unfold attachTls; split <;> rfl

@[simp] lemma attachTls_port (hook : InsightOpsHook) (opts : Opts) :
    (attachTls hook opts).port = hook.port := by
  unfold attachTls; split <;> rfl

@[simp] lemma attachTls_network (hook : InsightOpsHook) (opts : Opts) :
    (attachTls hook opts).network = hook.network := by
  unfold attachTls; split <;> rfl

@[simp] lemma attachTls_encrypt (hook : InsightOpsHook) (opts : Opts) :
    (attachTls hook opts).encrypt = hook.encrypt := by
  unfold attachTls; split <;> rfl

@[simp] lemma attachTls_levels (hook : InsightOpsHook) (opts : Opts) :
    (attachTls hook opts).levels = hook.levels := by
  unfold attachTls; split <;> rfl

lemma attachTls_of_not_encrypt (hook : InsightOpsHook) (opts : Opts)
    (h : hook.encrypt = false) : attachTls hook opts = hook := by
  unfold attachTls
  rw [if_neg]
  simp [h]

lemma region_cond_false (region : String) (hr : region = "eu" ∨ region = "us") :
    ¬(region = "" ∨ (region ≠ "eu" ∧ region ≠ "us")) := by
  rcases hr with h | h <;> subst h <;> decide

lemma resolveNew_empty_token (region : String) (options : Option Opts) :
    resolveNew "" region options = (Except.error missingTokenMsg, options) := by
  unfold resolveNew
  rw [if_pos rfl]

lemma resolveNew_bad_region (token region : String) (options : Option Opts)
    (ht : token ≠ "") (h1 : region ≠ "eu") (h2 : region ≠ "us") :
    resolveNew token region options = (Except.error invalidRegionMsg, options) := by
  unfold resolveNew
  rw [if_neg ht, if_pos (Or.inr ⟨h1, h2⟩)]

lemma resolveNew_none_ok (token region : String)
    (ht : token ≠ "") (hr : region = "eu" ∨ region = "us") :
    resolveNew token region none = (Except.ok (baseHook token region), none) := by
  unfold resolveNew
  rw [if_neg ht, if_neg (region_cond_false region hr)]

lemma resolveNew_some_noHub (token region : String) (o : Opts)
    (ht : token ≠ "") (hr : region = "eu" ∨ region = "us") (hd : o.DatahubConfig = none) :
    resolveNew token region (some o) =
      (Except.ok (attachTls { baseHook token region with
          timestampFormat := some "RFC3339"
          levels := allLevels.take (clampPriority o.Priority + 1) } o),
       some o) := by
  simp only [resolveNew, if_neg ht, if_neg (region_cond_false region hr), hd]

lemma resolveNew_hub_missingHost (token region : String) (o : Opts)
    (dh : UnencryptedConnectionConfig)
    (ht : token ≠ "") (hr : region = "eu" ∨ region = "us")
    (hd : o.DatahubConfig = some dh) (hh : dh.Host = "") :
    resolveNew token region (some o) = (Except.error missingHubHostMsg, some o) := by
  simp only [resolveNew, if_neg ht, if_neg (region_cond_false region hr), hd, if_pos hh]

lemma resolveNew_hub_ok (token region : String) (o : Opts)
    (dh : UnencryptedConnectionConfig)
    (ht : token ≠ "") (hr : region = "eu" ∨ region = "us")
    (hd : o.DatahubConfig = some dh) (hh : dh.Host ≠ "") :
    resolveNew token region (some o) =
      (Except.ok (attachTls { baseHook token region with
          timestampFormat := some "RFC3339"
          levels := allLevels.take (clampPriority o.Priority + 1)
          host := (normalizeHub dh).Host
          encrypt := false
          network := (normalizeHub dh).Type'
          port := (normalizeHub dh).Port } o),
       some { o with DatahubConfig := some (normalizeHub dh) }) := by
  simp only [resolveNew, if_neg ht, if_neg (region_cond_false region hr), hd, if_neg hh]

lemma New_of_resolve_ok (token region : String) (options : Option Opts)
    (probe : ProbeResult) (hook : InsightOpsHook) (outOpts : Option Opts)
    (h : resolveNew token region options = (Except.ok hook, outOpts))
    (hp : probeCloseErr probe = none) :
    New token region options probe = (Except.ok hook, outOpts) := by
  unfold New
  rw [h]
  rcases probe with e | ce
  · rfl
  · rcases ce with _ | e
    · rfl
    · simp [probeCloseErr] at hp

lemma New_of_resolve_error (token region : String) (options : Option Opts)
    (probe : ProbeResult) (e : String) (outOpts : Option Opts)
    (h : resolveNew token region options = (Except.error e, outOpts)) :
    New token region options probe = (Except.error e, outOpts) := by
  unfold New
  rw [h]

lemma New_snd (token region : String) (options : Option Opts) (probe : ProbeResult) :
    (New token region options probe).2 = (resolveNew token region options).2 := by
  unfold New
  rcases h : resolveNew token region options with ⟨r, oo⟩
  rcases r with e | hk
  · rfl
  · rcases probe with e | ce
    · rfl
    · rcases ce <;> rfl

/-! Claim theorems. -/

/-- C2: `New(token, region, options)` — an empty token fails with the
MissingToken error regardless of region, options and probe outcome; a
non-empty token with a region outside {eu, us} (including empty) fails
with the InvalidRegion error; otherwise, with no hub override supplied
(options absent, or present without a `DatahubConfig`), construction
succeeds and resolves host = region + ".data.logs.insight.rapid7.com",
port = 443, transport = tcp, encrypted = true. -/
theorem C2_new_validation_and_direct_target :
    (∀ region options probe,
        (New "" region options probe).1 = Except.error missingTokenMsg) ∧
    (∀ token region options probe, token ≠ "" → region ≠ "eu" → region ≠ "us" →
        (New token region options probe).1 = Except.error invalidRegionMsg) ∧
    (∀ token region probe, token ≠ "" → (region = "eu" ∨ region = "us") →
        probeCloseErr probe = none →
        (New token region none probe).1 = Except.ok (baseHook token region) ∧
        (baseHook token region).host = region ++ hostPostfix ∧
        (baseHook token region).port = 443 ∧
        (baseHook token region).network = "tcp" ∧
        (baseHook token region).encrypt = true) ∧
    (∀ token region o probe, token ≠ "" → (region = "eu" ∨ region = "us") →
        o.DatahubConfig = none → probeCloseErr probe = none →
        (New token region (some o) probe).1 =
          Except.ok (attachTls { baseHook token region with
            timestampFormat := some "RFC3339"
            levels := allLevels.take (clampPriority o.Priority + 1) } o) ∧
        (attachTls { baseHook token region with
            timestampFormat := some "RFC3339"
            levels := allLevels.take (clampPriority o.Priority + 1) } o).host =
          region ++ hostPostfix ∧
        (attachTls { baseHook token region with
            timestampFormat := some "RFC3339"
            levels := allLevels.take (clampPriority o.Priority + 1) } o).port = 443 ∧
        (attachTls { baseHook token region with
            timestampFormat := some "RFC3339"
            levels := allLevels.take (clampPriority o.Priority + 1) } o).network = "tcp" ∧
        (attachTls { baseHook token region with
            timestampFormat := some "RFC3339"
            levels := allLevels.take (clampPriority o.Priority + 1) } o).encrypt = true) := by
  refine ⟨?_, ?_, ?_, ?_⟩
  · intro region options probe
    rw [New_of_resolve_error "" region options probe missingTokenMsg options
      (resolveNew_empty_token region options)]
  · intro token region options probe ht h1 h2
    rw [New_of_resolve_error token region options probe invalidRegionMsg options
      (resolveNew_bad_region token region options ht h1 h2)]
  · intro token region probe ht hr hp
    refine ⟨?_, rfl, rfl, rfl, rfl⟩
    rw [New_of_resolve_ok token region none probe (baseHook token region) none
      (resolveNew_none_ok token region ht hr) hp]
  · intro token region o probe ht hr hd hp
    refine ⟨?_, by simp [baseHook], by simp [baseHook, tlsPort], by simp [baseHook], by simp [baseHook]⟩
    rw [New_of_resolve_ok token region (some o) probe _ (some o)
      (resolveNew_some_noHub token region o ht hr hd) hp]

/-- C2 witness: the direct (no-options) success clause at a concrete
valid input whose probe dial fails. -/
theorem C2_witness :
    (New "t" "eu" none (ProbeResult.dialFail "connection refused")).1 =
      Except.ok (baseHook "t" "eu") ∧
    (baseHook "t" "eu").host = "eu" ++ hostPostfix ∧
    (baseHook "t" "eu").port = 443 ∧
    (baseHook "t" "eu").network = "tcp" ∧
    (baseHook "t" "eu").encrypt = true :=
  C2_new_validation_and_direct_target.2.2.1 "t" "eu"
    (ProbeResult.dialFail "connection refused") (by decide) (Or.inl rfl) rfl

/-- C3: with a hub (`DatahubConfig`) override supplied — an empty override
Host fails with the MissingHubHost error; otherwise the resolved
transport is the override's Type when tcp/udp and tcp otherwise, the
resolved port is the override's Port when in {80, 514, 10000} and 514
otherwise, the target is unencrypted, and its host comes from the
override (the region-derived host is ignored). -/
theorem C3_hub_override :
    ∀ (token region : String) (o : Opts) (dh : UnencryptedConnectionConfig)
      (probe : ProbeResult), token ≠ "" → (region = "eu" ∨ region = "us") →
      o.DatahubConfig = some dh →
      ((dh.Host = "" →
          (New token region (some o) probe).1 = Except.error missingHubHostMsg) ∧
       (dh.Host ≠ "" → probeCloseErr probe = none →
          (New token region (some o) probe).1 = Except.ok
            { baseHook token region with
              timestampFormat := some "RFC3339"
              levels := allLevels.take (clampPriority o.Priority + 1)
              host := dh.Host
              encrypt := false
              network := if dh.Type' = "tcp" ∨ dh.Type' = "udp" then dh.Type' else "tcp"
              port := if dh.Port = 80 ∨ dh.Port = 514 ∨ dh.Port = 10000 then dh.Port else 514 })) := by
  intro token region o dh probe ht hr hd
  constructor
  · intro hh
    rw [New_of_resolve_error token region (some o) probe missingHubHostMsg (some o)
      (resolveNew_hub_missingHost token region o dh ht hr hd hh)]
  · intro hh hp
    have hres := resolveNew_hub_ok token region o dh ht hr hd hh
    rw [attachTls_of_not_encrypt _ _ rfl] at hres
    rw [New_of_resolve_ok token region (some o) probe _ _ hres hp]
    rw [normalizeHub_eq dh]

/-- C3 witness: a hub override with bogus transport and port at a
concrete valid input. -/
theorem C3_witness :
    (New "t" "us"
        (some { Priority := 0, TlsConfig := none
                DatahubConfig := some { Type' := "bogus", Port := 9999, Host := "hub.local" } })
        (ProbeResult.dialFail "no route")).1 = Except.ok
      { baseHook "t" "us" with
        timestampFormat := some "RFC3339"
        levels := allLevels.take (clampPriority 0 + 1)
        host := "hub.local"
        encrypt := false
        network := if ("bogus" : String) = "tcp" ∨ ("bogus" : String) = "udp" then "bogus" else "tcp"
        port := if (9999 : Int) = 80 ∨ (9999 : Int) = 514 ∨ (9999 : Int) = 10000 then 9999 else 514 } :=
  ((C3_hub_override "t" "us"
      { Priority := 0, TlsConfig := none
        DatahubConfig := some { Type' := "bogus", Port := 9999, Host := "hub.local" } }
      { Type' := "bogus", Port := 9999, Host := "hub.local" }
      (ProbeResult.dialFail "no route") (by decide) (Or.inr rfl) rfl).2 (by decide) rfl)

/-- C5: once configuration resolution succeeds, New's single probe is
benign unless closing the successfully-opened probe connection fails —
a probe dial failure is swallowed (construction succeeds), a clean
probe succeeds, and a close error is returned with no hook. -/
theorem C5_probe_policy :
    ∀ (token region : String) (options : Option Opts) (hook : InsightOpsHook)
      (outOpts : Option Opts),
      resolveNew token region options = (Except.ok hook, outOpts) →
      ((∀ e, New token region options (ProbeResult.dialFail e) = (Except.ok hook, outOpts)) ∧
       New token region options (ProbeResult.dialOk none) = (Except.ok hook, outOpts) ∧
       (∀ e, New token region options (ProbeResult.dialOk (some e)) =
          (Except.error e, outOpts))) := by
  intro token region options hook outOpts h
  refine ⟨fun e => ?_, ?_, fun e => ?_⟩ <;> unfold New <;> rw [h]

/-- C5 witness: at a concrete valid input, a failed probe close makes New
return exactly that error. -/
theorem C5_witness :
    New "t" "eu" none (ProbeResult.dialOk (some "close failed")) =
      (Except.error "close failed", none) :=
  (C5_probe_policy "t" "eu" none (baseHook "t" "eu") none rfl).2.2 "close failed"

/-- The hook of a construction result, when construction succeeded. -/
def okPart (r : Except String InsightOpsHook) : Option InsightOpsHook :=
  match r with
  | Except.ok hook => some hook
  | Except.error _ => none

lemma New_fst_ok_inv (token region : String) (options : Option Opts)
    (probe : ProbeResult) (hook : InsightOpsHook)
    (hN : (New token region options probe).1 = Except.ok hook) :
    (resolveNew token region options).1 = Except.ok hook := by
  unfold New at hN
  rcases h : resolveNew token region options with ⟨r, oo⟩
  rw [h] at hN
  rcases r with e | hk
  · simp at hN
  · rcases probe with e | ce
    · simp at hN; simp [hN]
    · rcases ce with _ | e
      · simp at hN; simp [hN]
      · simp at hN

lemma resolve_fst_ok_levels_none (token region : String) (hook : InsightOpsHook)
    (h : (resolveNew token region none).1 = Except.ok hook) :
    hook.levels = allLevels := by
  unfold resolveNew at h
  split at h
  · simp at h
  · split at h
    · simp at h
    · simp at h
      rw [← h]
      rfl

lemma resolve_fst_ok_levels_some (token region : String) (o : Opts) (hook : InsightOpsHook)
    (h : (resolveNew token region (some o)).1 = Except.ok hook) :
    hook.levels = allLevels.take (clampPriority o.Priority + 1) := by
  unfold resolveNew at h
  split at h
  · simp at h
  · split at h
    · simp at h
    · rcases hd : o.DatahubConfig with _ | dh
      · simp only [hd] at h
        simp at h
        rw [← h]
        simp
      · simp only [hd] at h
        split at h
        · simp at h
        · simp at h
          rw [← h]
          simp

/-- C4 counterexample: with no options supplied (the priority threshold
absent), New resolves the level filter to all severities — not to the
"info or more severe" prefix the claim states. -/
theorem C4_counterexample :
    (okPart (New "t" "us" none (ProbeResult.dialOk none)).1).map InsightOpsHook.levels =
      some allLevels ∧
    allLevels ≠ allLevels.take (infoLevel + 1) := by decide

/-- C4 (amended): when no options are supplied, the resolved level filter
is all severities; when options are supplied, the filter is the
inclusive prefix of the severity order (panic, fatal, error, warn,
info, debug, trace) through the threshold, where a threshold outside
the valid range falls back to info — in particular a Priority above the
maximum severity resolves to the "info or more severe" prefix, not an
error. -/
theorem C4_level_filter :
    (∀ (token region : String) (probe : ProbeResult) (hook : InsightOpsHook),
        (New token region none probe).1 = Except.ok hook →
        hook.levels = allLevels) ∧
    (∀ (token region : String) (o : Opts) (probe : ProbeResult) (hook : InsightOpsHook),
        (New token region (some o) probe).1 = Except.ok hook →
        hook.levels = allLevels.take (clampPriority o.Priority + 1) ∧
        (traceLevel < o.Priority →
          hook.levels = [LogLevel.panic, LogLevel.fatal, LogLevel.error,
                         LogLevel.warn, LogLevel.info])) := by
  constructor
  · intro token region probe hook hN
    exact resolve_fst_ok_levels_none token region hook
      (New_fst_ok_inv token region none probe hook hN)
  · intro token region o probe hook hN
    have h := resolve_fst_ok_levels_some token region o hook
      (New_fst_ok_inv token region (some o) probe hook hN)
    refine ⟨h, fun hp => ?_⟩
    rw [h]
    unfold clampPriority
    rw [if_pos (Or.inr hp)]
    rfl

/-- C4 witness: a Priority of 99 (above trace) resolves to the
info-or-more-severe prefix at a concrete valid input. -/
theorem C4_witness :
    ((New "t" "us" (some { Priority := 99, TlsConfig := none, DatahubConfig := none })
        (ProbeResult.dialOk none)).1.toOption.iget).levels =
      allLevels.take (clampPriority 99 + 1) ∧
    (traceLevel < 99 →
      ((New "t" "us" (some { Priority := 99, TlsConfig := none, DatahubConfig := none })
          (ProbeResult.dialOk none)).1.toOption.iget).levels =
        [LogLevel.panic, LogLevel.fatal, LogLevel.error, LogLevel.warn, LogLevel.info]) :=
  C4_level_filter.2 "t" "us" { Priority := 99, TlsConfig := none, DatahubConfig := none }
    (ProbeResult.dialOk none) _ rfl

/-- Spec-side restatement of the hub defaulting (C10's claim): Type kept
iff tcp/udp, else "tcp"; Port kept iff in the whitelist (80, 514, 10000),
else 514; Host kept. -/
def specHubDefaulting (dh : UnencryptedConnectionConfig) : UnencryptedConnectionConfig :=
  { Type' := if dh.Type' = "tcp" ∨ dh.Type' = "udp" then dh.Type' else "tcp"
    Port := if dh.Port = 80 ∨ dh.Port = 514 ∨ dh.Port = 10000 then dh.Port else 514
    Host := dh.Host }

lemma normalizeHub_eq_spec (dh : UnencryptedConnectionConfig) :
    normalizeHub dh = specHubDefaulting dh := normalizeHub_eq dh

/-- A hub override with invalid transport and port, and a host. -/
def bogusHub : UnencryptedConnectionConfig :=
  { Type' := "bogus", Port := 9999, Host := "hub.local" }

/-- A hub override with invalid transport and port and an empty host. -/
def bogusHubNoHost : UnencryptedConnectionConfig :=
  { Type' := "bogus", Port := 9999, Host := "" }

/-- Options carrying `bogusHub`. -/
def bogusOpts : Opts := { Priority := 0, TlsConfig := none, DatahubConfig := some bogusHub }

/-- Options carrying `bogusHubNoHost`. -/
def bogusOptsNoHost : Opts :=
  { Priority := 0, TlsConfig := none, DatahubConfig := some bogusHubNoHost }

/-- C10 counterexample: a call whose DatahubConfig has an invalid Type and
Port but an empty Host fails the Host check before the defaulting code
runs, so the caller's Type and Port fields are not overwritten. -/
theorem C10_counterexample :
    ((New "t" "us" (some bogusOptsNoHost) (ProbeResult.dialOk none)).2.bind
        Opts.DatahubConfig).map UnencryptedConnectionConfig.Type' = some "bogus" ∧
    ("bogus" : String) ≠ "tcp" ∧
    ((New "t" "us" (some bogusOptsNoHost) (ProbeResult.dialOk none)).2.bind
        Opts.DatahubConfig).map UnencryptedConnectionConfig.Port = some 9999 ∧
    (9999 : Int) ≠ 514 := by decide

/-- C10 (amended): whenever `New` reaches hub-override processing
(non-empty token, valid region, DatahubConfig supplied with a non-empty
Host), the caller's DatahubConfig is mutated in place: Type is kept
only when tcp/udp and overwritten with "tcp" otherwise, Port is kept
only when in the whitelist (80, 514, 10000) and overwritten with 514
otherwise, and Host is kept. -/
theorem C10_options_mutation :
    ∀ (token region : String) (o : Opts) (dh : UnencryptedConnectionConfig)
      (probe : ProbeResult),
      token ≠ "" → (region = "eu" ∨ region = "us") →
      o.DatahubConfig = some dh → dh.Host ≠ "" →
      (New token region (some o) probe).2 =
        some { o with DatahubConfig := some (specHubDefaulting dh) } := by
  intro token region o dh probe ht hr hd hh
  rw [New_snd, resolveNew_hub_ok token region o dh ht hr hd hh, normalizeHub_eq_spec dh]

/-- C10 witness: a concrete hub override with bogus Type and Port is
rewritten in the caller's options to tcp/514. -/
theorem C10_witness :
    (New "t" "us" (some bogusOpts) (ProbeResult.dialOk none)).2 =
      some { bogusOpts with DatahubConfig := some (specHubDefaulting bogusHub) } :=
  C10_options_mutation "t" "us" bogusOpts bogusHub
    (ProbeResult.dialOk none) (by decide) (Or.inr rfl) rfl (by decide)

/-- C1 counterexample: an entry whose serialization fails makes Fire
return that error to the logging framework — not nil as the claim
states. -/
theorem C1_counterexample :
    (Fire "T" initPool (Except.error "boom") true none).map FireResult.ret =
      some (some "boom") ∧
    some "boom" ≠ (none : Option String) := by decide

/-- C1 (amended): Fire swallows delivery errors — whenever serialization
succeeds it returns nil regardless of the dial/write outcome — but a
serialization error is returned to the caller (after being logged to
the error stream), not swallowed. -/
theorem C1_fire_error_swallowing :
    ∀ (token : String) (s : PoolState) (dialOk : Bool) (writeErr : Option String),
      (∀ (line : String) (r : FireResult),
          Fire token s (Except.ok line) dialOk writeErr = some r → r.ret = none) ∧
      (∀ (e : String) (r : FireResult),
          Fire token s (Except.error e) dialOk writeErr = some r →
          r.ret = some e ∧ r.stderrLog ≠ []) := by
  intro token s dialOk writeErr
  constructor
  · intro line r h
    simp only [Fire] at h
    rcases hw : hookWrite token s line dialOk writeErr with _ | w
    · rw [hw] at h
      simp at h
    · rw [hw] at h
      simp at h
      rw [← h]
  · intro e r h
    simp only [Fire] at h
    simp at h
    subst h
    exact ⟨rfl, by simp⟩

/-- C1 witness: a successful format with a successful write returns nil
from Fire at a concrete input. -/
theorem C1_witness :
    ((Fire "T" initPool (Except.ok "x") true none).iget).ret = none :=
  (C1_fire_error_swallowing "T" initPool true none).1 "x"
    ((Fire "T" initPool (Except.ok "x") true none).iget) rfl

/-- C6: Fire's dispatch — a serialization error is logged to the error
stream and returned without any delivery attempt (nothing sent, pool
state unchanged); on serialization success Fire delegates to write,
logs any write error to the error stream, and returns nil. -/
theorem C6_fire_dispatch :
    ∀ (token : String) (s : PoolState) (dialOk : Bool) (writeErr : Option String),
      (∀ e, Fire token s (Except.error e) dialOk writeErr =
          some { ret := some e
                 stderrLog := ["unable to read entry | err: " ++ e]
                 sent := []
                 state := s }) ∧
      (∀ (line : String) (w : WriteResult),
          hookWrite token s line dialOk writeErr = some w →
          Fire token s (Except.ok line) dialOk writeErr =
            some { ret := none
                   stderrLog :=
                     match w.res with
                     | some e => ["unable to write to conn | err: " ++ e ++ " | line: " ++ line]
                     | none => []
                   sent := w.sent
                   state := w.state }) := by
  intro token s dialOk writeErr
  constructor
  · intro e
    rfl
  · intro line w hw
    simp only [Fire, hw]

/-- C6 witness: a successful format and write at a concrete input — Fire
returns nil, logs nothing, and sends the token-prefixed line. -/
theorem C6_witness :
    Fire "T" initPool (Except.ok "x") true none =
      some { ret := none
             stderrLog := []
             sent := ["T" ++ "x"]
             state := { pool := [0]
                        capacity := 3
                        poolClosed := false
                        dialCount := 1
                        nextId := 1
                        closedConns := [] } } :=
  (C6_fire_dispatch "T" initPool true none).2 "x"
    { sent := ["T" ++ "x"]
      res := none
      state := { pool := [0]
                 capacity := 3
                 poolClosed := false
                 dialCount := 1
                 nextId := 1
                 closedConns := [] } } rfl

/-- C7: write checks out one connection and performs a single write whose
payload is exactly token ++ line (no delimiter); on write error it
closes that connection and propagates the error, leaving the pool
unchanged (no retry, connection not returned); on success it checks the
connection back in via putConn. -/
theorem C7_write_behavior :
    ∀ (token line : String) (s : PoolState) (dialOk : Bool) (writeErr : Option String)
      (c : Nat) (s1 : PoolState),
      s.poolClosed = false →
      getConn s dialOk = (Except.ok c, s1) →
      ((writeErr = none →
          ∃ s2, putConn s1 c = some s2 ∧
            hookWrite token s line dialOk writeErr =
              some { sent := [token ++ line], res := none, state := s2 }) ∧
       (∀ e, writeErr = some e →
          hookWrite token s line dialOk writeErr =
            some { sent := [token ++ line]
                   res := some e
                   state := { s1 with closedConns := s1.closedConns ++ [c] } } ∧
          ({ s1 with closedConns := s1.closedConns ++ [c] } : PoolState).pool = s1.pool)) := by
  intro token line s dialOk writeErr c s1 hopen hget
  have hs1closed : s1.poolClosed = false := by
    have h2 : (getConn s dialOk).2 = s1 := congrArg Prod.snd hget
    rw [← h2]
    unfold getConn
    rcases hp : s.pool with _ | ⟨a, rest⟩ <;> simp only [hp]
    · split <;> exact hopen
    · exact hopen
  constructor
  · intro hwe
    subst hwe
    rcases hput : putConn s1 c with _ | s2
    · exfalso
      unfold putConn at hput
      rw [hs1closed] at hput
      simp at hput
      split at hput <;> simp at hput
    · refine ⟨s2, rfl, ?_⟩
      simp only [hookWrite, hget, hput]
  · intro e hwe
    subst hwe
    constructor
    · simp only [hookWrite, hget]
    · rfl

/-- C7 witness: with an empty pool and a successful dial, a failed write
closes the fresh connection and returns the write error. -/
theorem C7_witness :
    hookWrite "T" initPool "x" true (some "werr") =
      some { sent := ["T" ++ "x"]
             res := some "werr"
             state := { pool := []
                        capacity := 3
                        poolClosed := false
                        dialCount := 1
                        nextId := 1
                        closedConns := [0] } } ∧
    ({ pool := ([] : List Nat)
       capacity := 3
       poolClosed := false
       dialCount := 1
       nextId := 1
       closedConns := [0] } : PoolState).pool = [] :=
  (C7_write_behavior "T" "x" initPool true (some "werr") 0
    { pool := []
      capacity := 3
      poolClosed := false
      dialCount := 1
      nextId := 1
      closedConns := [] } rfl rfl).2 "werr" rfl

/-- C8: pool round-trip — a checkin while the pool holds fewer than
capacity idle connections retains the connection, and the next checkout
returns the pooled head without dialing (dial count unchanged, and it
is the checked-in connection itself when the pool was empty); a checkin
when the pool already holds capacity-many idle connections closes the
connection immediately and retains nothing. -/
theorem C8_pool_roundtrip :
    ∀ (s : PoolState) (c : Nat) (dialOk : Bool),
      s.poolClosed = false →
      ((s.pool.length < s.capacity →
          putConn s c = some { s with pool := s.pool ++ [c] } ∧
          getConn { s with pool := s.pool ++ [c] } dialOk =
            (Except.ok ((s.pool ++ [c]).headI),
             { s with pool := (s.pool ++ [c]).tail }) ∧
          (s.pool = [] → (s.pool ++ [c]).headI = c)) ∧
       (s.pool.length = s.capacity →
          putConn s c = some { s with closedConns := s.closedConns ++ [c] })) := by
  intro s c dialOk hopen
  constructor
  · intro hlen
    refine ⟨?_, ?_, ?_⟩
    · simp [putConn, hopen, hlen]
    · unfold getConn
      rcases hp : s.pool with _ | ⟨a, rest⟩ <;> simp [hp]
    · intro hnil
      rw [hnil]
      rfl
  · intro hlen
    simp [putConn, hopen, hlen]

/-- C8 witness: checking connection 7 into the empty pool retains it, and
the next checkout returns exactly connection 7 without dialing. -/
theorem C8_witness :
    putConn initPool 7 = some { initPool with pool := initPool.pool ++ [7] } ∧
    getConn { initPool with pool := initPool.pool ++ [7] } false =
      (Except.ok ((initPool.pool ++ [7]).headI),
       { initPool with pool := (initPool.pool ++ [7]).tail }) ∧
    (initPool.pool = [] → (initPool.pool ++ [7]).headI = 7) :=
  (C8_pool_roundtrip initPool 7 false rfl).1 (by decide)

/-- C9: FlushAndClose closes the pool to further check-ins (a later
putConn can no longer park a connection in the pool) and closes every
connection that was idle in the pool, leaving no idle pooled
connection. -/
theorem C9_flush_and_close :
    ∀ s : PoolState,
      (FlushAndClose s).pool = [] ∧
      (FlushAndClose s).poolClosed = true ∧
      (∀ c, c ∈ s.pool → c ∈ (FlushAndClose s).closedConns) ∧
      (∀ c, putConn (FlushAndClose s) c = none) := by
  intro s
  refine ⟨rfl, rfl, ?_, ?_⟩
  · intro c hc
    simp [FlushAndClose]
    exact Or.inr hc
  · intro c
    simp [putConn, FlushAndClose]

/-- A pool holding two idle connections. -/
def poolTwo : PoolState :=
  { pool := [1, 2], capacity := 3, poolClosed := false
    dialCount := 0, nextId := 3, closedConns := [] }

/-- C9 witness: flushing a pool with two idle connections empties it,
closes idle connection 1, and refuses a later check-in. -/
theorem C9_witness :
    (FlushAndClose poolTwo).pool = [] ∧
    1 ∈ (FlushAndClose poolTwo).closedConns ∧
    putConn (FlushAndClose poolTwo) 5 = none :=
  ⟨(C9_flush_and_close poolTwo).1,
   (C9_flush_and_close poolTwo).2.2.1 1 (by decide),
   (C9_flush_and_close poolTwo).2.2.2 5⟩

end InsightOps
